import Mathlib

/-!
Shallow embedding of the Anime-to-do-list server (src/server.js, with the
alternative handler file src/unnamed/part_000 embedded alongside where the
claims cite it).  The durable SQLite tables are modelled as Lean lists of
rows; each Express handler becomes a pure function from the request inputs
and the current table(s) to a response together with the resulting
table(s).  Fallible external steps (a db.run that errors) are modelled by
explicit boolean parameters, since the source only observes success/failure
of such a step through its callback argument.  Wall-clock time is modelled
in whole seconds (SQLite's datetime() comparison used by the code has
second resolution); the JavaScript expiry `Date.now() + 3600000` ms is one
hour, i.e. 3600 seconds.
-/

namespace AnimeApp

/-- A row of the `anime` table (src/server.js lines 35-45). `episodes`,
`genre` and `image_path` are nullable columns. `created_at` is omitted:
no claim depends on it (it only drives the dashboard ORDER BY). -/
structure AnimeEntry where
  id : Nat
  user_id : Nat
  title : String
  rating : Int
  episodes : Option Int
  genre : Option String
  image_path : Option String
  deriving Repr, DecidableEq

/-- A row of the `users` table (src/server.js lines 26-33). The UNIQUE
constraints on username and email are modelled in `insertUser`. -/
structure UserRow where
  id : Nat
  username : String
  email : String
  password : String
  newsletter : Bool
  deriving Repr, DecidableEq

/-- A row of the `password_resets` table (src/server.js lines 47-54),
with `expires_at` in seconds. -/
structure ResetRow where
  token : String
  email : String
  expires_at : Nat
  used : Bool
  deriving Repr, DecidableEq

/-- The observable response a handler sends back: a redirect to a path
(query string included, as the code puts its flash messages there), or a
rendered view with its error/success locals, or one of the data-carrying
renders (edit form, dashboard list, reset form). -/
inductive Resp where
  | redirect (path : String)
  | render (view : String) (err : Option String) (succ : Option String)
  | renderEditView (e : AnimeEntry)
  | renderList (entries : List AnimeEntry)
  | renderResetForm (tok : Option String) (err : Option String)
  deriving Repr, DecidableEq

/-- JavaScript String.prototype.trim: strip whitespace from both ends.
(Defined over the character list so that concrete instances reduce.) -/
def jsTrim (s : String) : String :=
  ⟨((s.data.dropWhile Char.isWhitespace).reverse.dropWhile Char.isWhitespace).reverse⟩

/-- The `isAuthenticated` middleware (src/server.js lines 98-104):
`req.session.userId` truthy lets the request through, otherwise redirect
to /login.  A session value of 0 is falsy in JavaScript, hence rejected;
absent session is `none`. -/
def isAuthenticated (userId : Option Nat) : Bool :=
  match userId with
  | some u => u != 0
  | none => false

/-- Dashboard query `SELECT * FROM anime WHERE user_id = ?`
(src/server.js line 284; the ORDER BY only permutes the result). -/
def listEntries (table : List AnimeEntry) (uid : Nat) : List AnimeEntry :=
  table.filter (fun a => a.user_id == uid)

/-- Ownership pre-check `SELECT * FROM anime WHERE id = ? AND user_id = ?`
shared by the edit, update and delete handlers
(src/server.js lines 322, 338, 372). -/
def getEntry (table : List AnimeEntry) (uid eid : Nat) : Option AnimeEntry :=
  table.find? (fun a => a.id == eid && a.user_id == uid)

/-- GET /dashboard (src/server.js lines 283-297). -/
def dashboardHandler (userId : Option Nat) (table : List AnimeEntry) :
    Resp × List AnimeEntry :=
  if isAuthenticated userId then
    (Resp.renderList (listEntries table (userId.getD 0)), table)
  else
    (Resp.redirect "/login", table)

/-- POST /anime/add (src/server.js lines 300-318).  `title` and `rating`
arrive as request-body fields; `!title || !rating` rejects an empty or
missing field (a present numeric field is carried as `some r`, so the
string "0" — truthy in JavaScript — passes this check).  The INSERT is
subject to the table's CHECK(rating >= 1 AND rating <= 10) constraint
(src/server.js line 39): a violating insert errors and the handler
redirects with the failure message, creating no row. -/
def addHandlerSrv (userId : Option Nat) (table : List AnimeEntry)
    (freshId : Nat) (title : String) (rating : Option Int)
    (episodes : Option Int) (genre : Option String) (image : Option String) :
    Resp × List AnimeEntry :=
  if isAuthenticated userId then
    if title == "" || rating == none then
      (Resp.redirect "/dashboard?error=Title dan rating harus diisi!", table)
    else
      match rating with
      | none =>
          (Resp.redirect "/dashboard?error=Title dan rating harus diisi!", table)
      | some r =>
          if r < 1 || 10 < r then
            (Resp.redirect "/dashboard?error=Gagal menambahkan anime!", table)
          else
            (Resp.redirect "/dashboard",
             table ++ [⟨freshId, userId.getD 0, title, r, episodes, genre, image⟩])
  else
    (Resp.redirect "/login", table)

/-- POST /anime/add in src/unnamed/part_000 (lines 211-260): trims the
title, converts the rating with Number (a missing or non-numeric field
yields NaN, modelled as `none`), normalises genre, and rejects unless
the trimmed title is non-empty and 1 <= rating <= 10. -/
def addHandlerP0 (userId : Option Nat) (table : List AnimeEntry)
    (freshId : Nat) (title : String) (rating : Option Int)
    (episodes : Option Int) (genre : String) (image : Option String) :
    Resp × List AnimeEntry :=
  if isAuthenticated userId then
    let t := jsTrim title
    let g := if jsTrim genre == "" then none else some (jsTrim genre)
    match rating with
    | none =>
        (Resp.redirect "/dashboard?error=Judul dan rating (1-10) wajib diisi!", table)
    | some r =>
        if t == "" || r < 1 || 10 < r then
          (Resp.redirect "/dashboard?error=Judul dan rating (1-10) wajib diisi!", table)
        else
          (Resp.redirect "/dashboard?success=Anime berhasil ditambahkan!",
           table ++ [⟨freshId, userId.getD 0, t, r, episodes, g, image⟩])
  else
    (Resp.redirect "/login", table)

/-- GET /anime/edit/:id (src/server.js lines 321-331): ownership-scoped
fetch; a missing or foreign row yields the redirect to /dashboard. -/
def editHandler (userId : Option Nat) (table : List AnimeEntry) (eid : Nat) :
    Resp × List AnimeEntry :=
  if isAuthenticated userId then
    match getEntry table (userId.getD 0) eid with
    | some a => (Resp.renderEditView a, table)
    | none => (Resp.redirect "/dashboard", table)
  else
    (Resp.redirect "/login", table)

/-- POST /anime/update/:id (src/server.js lines 334-368): ownership
pre-check, then `UPDATE anime ... WHERE id = ?` (the UPDATE statement
itself filters by id only).  A db.run error on the UPDATE is only
logged (line 361) and the handler redirects to /dashboard regardless;
`dbFails` models that error. -/
def updateHandlerSrv (userId : Option Nat) (table : List AnimeEntry)
    (eid : Nat) (title : String) (rating : Int) (episodes : Option Int)
    (genre : Option String) (newFile : Option String) (dbFails : Bool) :
    Resp × List AnimeEntry :=
  if isAuthenticated userId then
    match getEntry table (userId.getD 0) eid with
    | none => (Resp.redirect "/dashboard", table)
    | some anime =>
        let imagePath := match newFile with
          | some f => some f
          | none => anime.image_path
        if dbFails then
          (Resp.redirect "/dashboard", table)
        else
          (Resp.redirect "/dashboard",
           table.map (fun a =>
             if a.id == eid then
               { a with title := title, rating := rating, episodes := episodes,
                        genre := genre, image_path := imagePath }
             else a))
  else
    (Resp.redirect "/login", table)

/-- POST /anime/delete/:id (src/server.js lines 371-393): ownership
pre-check, then `DELETE FROM anime WHERE id = ?`. -/
def deleteHandlerSrv (userId : Option Nat) (table : List AnimeEntry)
    (eid : Nat) : Resp × List AnimeEntry :=
  if isAuthenticated userId then
    match getEntry table (userId.getD 0) eid with
    | none => (Resp.redirect "/dashboard", table)
    | some _ =>
        (Resp.redirect "/dashboard", table.filter (fun a => a.id != eid))
  else
    (Resp.redirect "/login", table)

/-- Validator validateUsername (src/server.js lines 109-120), returning the error
message of the first failing check, or `none` when valid.  The JavaScript
`!username` falsy test is absorbed by the length-below-3 check for the
string-typed field.  The regex /^[a-zA-Z0-9_]+$/ is Latin letters, digits
and underscore. -/
def usernameErrorMsg (username : String) : Option String :=
  if username.length < 3 then some "Username minimal 3 karakter"
  else if 20 < username.length then some "Username maksimal 20 karakter"
  else if !username.data.all (fun c => c.isAlpha || c.isDigit || c == '_') then
    some "Username hanya boleh berisi huruf, angka, dan underscore"
  else none

def validateUsername (username : String) : Bool :=
  (usernameErrorMsg username).isNone

/-- Validator validateEmail (src/server.js lines 123-129).  The regex
/^[^\s@]+@[^\s@]+\.[^\s@]+$/ matches exactly the whitespace-free strings
with a single '@' whose local part is non-empty and whose domain part
contains a '.' that is neither its first nor its last character. -/
def validateEmail (email : String) : Bool :=
  let cs := email.data
  let before := cs.takeWhile (fun c => c != '@')
  match cs.dropWhile (fun c => c != '@') with
  | [] => false
  | _ :: after =>
      cs.all (fun c => !c.isWhitespace) &&
      !before.isEmpty &&
      after.all (fun c => c != '@') &&
      !after.isEmpty &&
      ((after.drop 1).dropLast.contains '.')

/-- Validator validatePassword (src/server.js lines 132-146): first failing check
wins; the character-class tests /[A-Z]/, /[a-z]/, /\d/ are ASCII. -/
def passwordErrorMsg (password : String) : Option String :=
  if password.length < 8 then some "Password minimal 8 karakter"
  else if !password.data.any Char.isUpper then
    some "Password harus mengandung huruf besar"
  else if !password.data.any Char.isLower then
    some "Password harus mengandung huruf kecil"
  else if !password.data.any Char.isDigit then
    some "Password harus mengandung angka"
  else none

def validatePassword (password : String) : Bool :=
  (passwordErrorMsg password).isNone

/-- The username rule as the specification states it: 3 to 20 characters
drawn from letters, digits and underscore.  Stated independently of
`validateUsername` so the two can be compared. -/
def specUsernameRules (s : String) : Prop :=
  3 ≤ s.length ∧ s.length ≤ 20 ∧
    ∀ c ∈ s.data, (c.isAlpha = true ∨ c.isDigit = true ∨ c = '_')

/-- The password rule as the specification states it: at least 8
characters with at least one uppercase letter, one lowercase letter and
one digit. -/
def specPasswordRules (s : String) : Prop :=
  8 ≤ s.length ∧ (∃ c ∈ s.data, c.isUpper = true) ∧
    (∃ c ∈ s.data, c.isLower = true) ∧ (∃ c ∈ s.data, c.isDigit = true)

instance (s : String) : Decidable (specUsernameRules s) := by
  unfold specUsernameRules
  infer_instance

instance (s : String) : Decidable (specPasswordRules s) := by
  unfold specPasswordRules
  infer_instance

/-- INSERT INTO users, subject to the UNIQUE constraints on username and
email declared in the schema (src/server.js lines 28-29): the insert
errors (returns `none`) when either value is already present, leaving
the table untouched. -/
def insertUser (users : List UserRow) (u : UserRow) : Option (List UserRow) :=
  if users.any (fun v => v.username == u.username || v.email == u.email) then
    none
  else
    some (users ++ [u])

/-- Distinguishable outcomes of POST /register (each corresponds to a
distinct `res.render('register', ...)` message or the final redirect in
src/server.js lines 164-236). -/
inductive RegResp where
  | missingFields
  | termsError
  | usernameError (msg : String)
  | emailError
  | passwordError (msg : String)
  | mismatchError
  | duplicateUsername
  | duplicateEmail
  | insertFailed
  | redirectLoginSuccess
  deriving Repr, DecidableEq

/-- The outcomes of /register that render the form again with a
user-correctable validation message (as opposed to duplicate errors,
store failure, or success). -/
def isValidationResp (r : RegResp) : Bool :=
  match r with
  | RegResp.missingFields => true
  | RegResp.termsError => true
  | RegResp.usernameError _ => true
  | RegResp.emailError => true
  | RegResp.passwordError _ => true
  | RegResp.mismatchError => true
  | _ => false

/-- POST /register (src/server.js lines 164-236): field presence, terms,
username/email/password validation, confirmation match, the two
application-level duplicate pre-checks, then the INSERT (which can still
fail on the store-level UNIQUE constraints).  `hashOf` stands for
bcrypt.hash. -/
def registerHandler (users : List UserRow) (username email password confirmPassword : String)
    (terms newsletter : Bool) (hashOf : String → String) (freshId : Nat) :
    RegResp × List UserRow :=
  if username == "" || email == "" || password == "" || confirmPassword == "" then
    (RegResp.missingFields, users)
  else if !terms then
    (RegResp.termsError, users)
  else
    match usernameErrorMsg username with
    | some m => (RegResp.usernameError m, users)
    | none =>
      if !validateEmail email then
        (RegResp.emailError, users)
      else
        match passwordErrorMsg password with
        | some m => (RegResp.passwordError m, users)
        | none =>
          if password != confirmPassword then
            (RegResp.mismatchError, users)
          else if users.any (fun v => v.username == username) then
            (RegResp.duplicateUsername, users)
          else if users.any (fun v => v.email == email) then
            (RegResp.duplicateEmail, users)
          else
            match insertUser users ⟨freshId, username, email, hashOf password, newsletter⟩ with
            | none => (RegResp.insertFailed, users)
            | some users2 => (RegResp.redirectLoginSuccess, users2)

/-- Token issuance inside POST /forgot-password (src/server.js
lines 452-458): a fresh random token with expiry one hour from now is
inserted into password_resets with `used = 0`. -/
def issueToken (resets : List ResetRow) (email tok : String) (now : Nat) :
    List ResetRow :=
  resets ++ [⟨tok, email, now + 3600, false⟩]

/-- The validity query shared by GET /reset-password/:token and
POST /reset-password (src/server.js lines 491 and 543):
`SELECT * FROM password_resets WHERE token = ? AND used = 0 AND
datetime(expires_at) > datetime("now")`. -/
def findValidReset (resets : List ResetRow) (tok : String) (now : Nat) :
    Option ResetRow :=
  resets.find? (fun r => r.token == tok && !r.used && decide (now < r.expires_at))

/-- POST /forgot-password (src/server.js lines 423-483).  `tok` stands
for the crypto.randomBytes token generated when the email is found.  The
db-error branches of the two store calls are omitted: no claim concerns
them and both render a generic error without touching the table. -/
def forgotPasswordHandler (users : List UserRow) (resets : List ResetRow)
    (email tok : String) (now : Nat) : Resp × List ResetRow :=
  if email == "" then
    (Resp.render "forgot-password" (some "Email harus diisi!") none, resets)
  else
    match users.find? (fun u => u.email == email) with
    | none =>
        (Resp.render "forgot-password" none
          (some "Jika email terdaftar, link reset password telah dikirim ke email Anda. Silakan periksa inbox Anda."),
         resets)
    | some _ =>
        (Resp.render "forgot-password" none
          (some "Link reset password telah dikirim ke email Anda. Periksa console untuk melihat link (demo mode)."),
         issueToken resets email tok now)

/-- GET /reset-password/:token (src/server.js lines 486-509): renders the
reset form iff the token is currently valid. -/
def resetPageHandler (resets : List ResetRow) (tok : String) (now : Nat) : Resp :=
  match findValidReset resets tok now with
  | none =>
      Resp.renderResetForm none
        (some "Link reset password tidak valid atau sudah kadaluarsa!")
  | some _ => Resp.renderResetForm (some tok) none

/-- The two durable stores the reset flow touches. -/
structure ResetState where
  users : List UserRow
  resets : List ResetRow
  deriving Repr, DecidableEq

/-- POST /reset-password (src/server.js lines 512-591): field presence,
confirmation match, password validation, re-validation of the token at
consumption time, then `UPDATE users SET password = ...` followed by a
separate `UPDATE password_resets SET used = 1`.  `updateFails` models a
db error on the users UPDATE (the handler renders an error and stops);
`markUsedFails` models a db error on the mark-used UPDATE, which the
code only logs (line 574) while still redirecting with success. -/
def resetPasswordHandler (st : ResetState) (tok password confirmPassword : String)
    (now : Nat) (hashOf : String → String) (updateFails markUsedFails : Bool) :
    Resp × ResetState :=
  if tok == "" || password == "" || confirmPassword == "" then
    (Resp.renderResetForm (some tok) (some "Semua field harus diisi!"), st)
  else if password != confirmPassword then
    (Resp.renderResetForm (some tok)
      (some "Password dan konfirmasi password tidak cocok!"), st)
  else
    match passwordErrorMsg password with
    | some m => (Resp.renderResetForm (some tok) (some m), st)
    | none =>
      match findValidReset st.resets tok now with
      | none =>
          (Resp.renderResetForm none
            (some "Link reset password tidak valid atau sudah kadaluarsa!"), st)
      | some row =>
          if updateFails then
            (Resp.renderResetForm (some tok)
              (some "Terjadi kesalahan saat mereset password!"), st)
          else
            let users2 := st.users.map (fun u =>
              if u.email == row.email then { u with password := hashOf password } else u)
            let resets2 :=
              if markUsedFails then st.resets
              else st.resets.map (fun r =>
                if r.token == tok then { r with used := true } else r)
            (Resp.redirect "/login?success=Password berhasil direset! Silakan login dengan password baru.",
             ⟨users2, resets2⟩)

/-! Theorems.  Each claim theorem is stated over the handler embeddings
above; the redirect to /dashboard is the code's unified
missing-or-not-owned ("NotFoundOrForbidden") outcome. -/

/-- Helper: the ownership-scoped lookup finds nothing when the requesting
user is not the owner (row ids being unique, as for a primary key). -/
theorem getEntry_cross_none (table : List AnimeEntry) (e : AnimeEntry) (b : Nat)
    (huniq : ∀ a ∈ table, a.id = e.id → a = e)
    (hb : b ≠ e.user_id) : getEntry table b e.id = none := by
  unfold getEntry
  rw [List.find?_eq_none]
  intro a ha
  simp only [Bool.and_eq_true, beq_iff_eq, not_and]
  intro hid huid
  exact hb (by rw [← huid, huniq a ha hid])

/-- C1: for an entry E owned by user A and any logged-in user B ≠ A, the
edit-page read, the update and the delete invoked by B with E's id all
produce the redirect-to-dashboard (NotFoundOrForbidden) outcome and leave
the anime table — in particular E — unchanged: an entry id alone never
suffices to read, alter or delete an entry. -/
theorem c1_ownership_isolation (table : List AnimeEntry) (e : AnimeEntry) (b : Nat)
    (title : String) (rating : Int) (episodes : Option Int) (genre : Option String)
    (newFile : Option String) (dbFails : Bool)
    (hmem : e ∈ table) (huniq : ∀ a ∈ table, a.id = e.id → a = e)
    (hb : b ≠ e.user_id) (hb0 : b ≠ 0) :
    editHandler (some b) table e.id = (Resp.redirect "/dashboard", table) ∧
    updateHandlerSrv (some b) table e.id title rating episodes genre newFile dbFails =
      (Resp.redirect "/dashboard", table) ∧
    deleteHandlerSrv (some b) table e.id = (Resp.redirect "/dashboard", table) := by
  have hnone := getEntry_cross_none table e b huniq hb
  have hauth : isAuthenticated (some b) = true := by simp [isAuthenticated, hb0]
  refine ⟨?_, ?_, ?_⟩ <;>
    simp [editHandler, updateHandlerSrv, deleteHandlerSrv, hauth, hnone]

/-- C1 witness: user 20 attacking entry 1 of user 10. -/
theorem c1_witness :
    editHandler (some 20) [⟨1, 10, "Naruto", 8, none, none, none⟩] 1 =
      (Resp.redirect "/dashboard", [⟨1, 10, "Naruto", 8, none, none, none⟩]) ∧
    updateHandlerSrv (some 20) [⟨1, 10, "Naruto", 8, none, none, none⟩] 1
        "Hacked" 1 none none none false =
      (Resp.redirect "/dashboard", [⟨1, 10, "Naruto", 8, none, none, none⟩]) ∧
    deleteHandlerSrv (some 20) [⟨1, 10, "Naruto", 8, none, none, none⟩] 1 =
      (Resp.redirect "/dashboard", [⟨1, 10, "Naruto", 8, none, none, none⟩]) :=
  c1_ownership_isolation [⟨1, 10, "Naruto", 8, none, none, none⟩]
    ⟨1, 10, "Naruto", 8, none, none, none⟩ 20 "Hacked" 1 none none none false
    (by decide) (by decide) (by decide) (by decide)

/-- C2 counterexample: the mark-used step is a separate statement whose
failure is only logged, so after a first consumption whose password
update succeeded but whose mark-used step failed, a second consumption
attempt on the same token succeeds again — refuting "once the password
update has succeeded the token can never be consumed again, even if the
mark-used step fails". -/
theorem c2_counterexample :
    (resetPasswordHandler
        ⟨[⟨1, "alice", "alice@example.com", "oldhash", false⟩],
         [⟨"tok1", "alice@example.com", 1000, false⟩]⟩
        "tok1" "Password1" "Password1" 10 (fun _ => "h2") false true).1 =
      Resp.redirect "/login?success=Password berhasil direset! Silakan login dengan password baru." ∧
    (resetPasswordHandler
        (resetPasswordHandler
          ⟨[⟨1, "alice", "alice@example.com", "oldhash", false⟩],
           [⟨"tok1", "alice@example.com", 1000, false⟩]⟩
          "tok1" "Password1" "Password1" 10 (fun _ => "h2") false true).2
        "tok1" "NewPassword2" "NewPassword2" 11 (fun _ => "h3") false false).1 =
      Resp.redirect "/login?success=Password berhasil direset! Silakan login dengan password baru." := by
  decide

/-- Helper: once every row carrying the token is marked used, the
validity query can never find it again. -/
theorem findValidReset_after_mark (resets : List ResetRow) (tok : String) (now2 : Nat) :
    findValidReset
      (resets.map (fun r => if r.token == tok then { r with used := true } else r))
      tok now2 = none := by
  unfold findValidReset
  rw [List.find?_eq_none]
  intro r hr
  rw [List.mem_map] at hr
  obtain ⟨r0, hr0, rfl⟩ := hr
  by_cases h : r0.token == tok
  · simp [h]
  · simp [h]

/-- Helper: when the token does not validate, the reset POST leaves both
stores untouched and never responds with a redirect. -/
theorem resetPassword_no_consume (st : ResetState) (tok password confirm : String)
    (now : Nat) (hashOf : String → String) (uf mf : Bool)
    (hnone : findValidReset st.resets tok now = none) :
    (resetPasswordHandler st tok password confirm now hashOf uf mf).2 = st ∧
    ∀ p, (resetPasswordHandler st tok password confirm now hashOf uf mf).1 ≠
      Resp.redirect p := by
  unfold resetPasswordHandler
  simp only [hnone]
  constructor
  · split
    · rfl
    · split
      · rfl
      · split
        · rfl
        · rfl
  · intro p
    split
    · simp
    · split
      · simp
      · split
        · simp
        · simp

/-- C2 as amended: consume_token re-checks validity at consumption time;
when the mark-used step succeeds (and the password update succeeds), the
token is marked used and a second consumption attempt on it always
fails, changing nothing.  (The resilience against a failing mark-used
step claimed originally does not hold — see the counterexample.) -/
theorem c2_amended_single_use (st : ResetState)
    (tok password confirm password2 confirm2 : String) (now now2 : Nat)
    (hashOf hashOf2 : String → String) (uf2 mf2 : Bool) (row : ResetRow)
    (h1 : tok ≠ "") (h2 : password ≠ "") (h3 : confirm ≠ "")
    (h4 : password = confirm) (h5 : passwordErrorMsg password = none)
    (h6 : findValidReset st.resets tok now = some row) :
    (resetPasswordHandler st tok password confirm now hashOf false false).1 =
      Resp.redirect "/login?success=Password berhasil direset! Silakan login dengan password baru." ∧
    (resetPasswordHandler
        (resetPasswordHandler st tok password confirm now hashOf false false).2
        tok password2 confirm2 now2 hashOf2 uf2 mf2).1 ≠
      Resp.redirect "/login?success=Password berhasil direset! Silakan login dengan password baru." ∧
    (resetPasswordHandler
        (resetPasswordHandler st tok password confirm now hashOf false false).2
        tok password2 confirm2 now2 hashOf2 uf2 mf2).2 =
      (resetPasswordHandler st tok password confirm now hashOf false false).2 := by
  have hrun : resetPasswordHandler st tok password confirm now hashOf false false =
      (Resp.redirect "/login?success=Password berhasil direset! Silakan login dengan password baru.",
       ⟨st.users.map (fun u =>
          if u.email == row.email then { u with password := hashOf password } else u),
        st.resets.map (fun r =>
          if r.token == tok then { r with used := true } else r)⟩) := by
    subst h4
    unfold resetPasswordHandler
    simp [h1, h2, h5, h6]
  have hmark : findValidReset
      (st.resets.map (fun r => if r.token == tok then { r with used := true } else r))
      tok now2 = none := findValidReset_after_mark st.resets tok now2
  have hafter := resetPassword_no_consume
    ⟨st.users.map (fun u =>
        if u.email == row.email then { u with password := hashOf password } else u),
     st.resets.map (fun r =>
        if r.token == tok then { r with used := true } else r)⟩
    tok password2 confirm2 now2 hashOf2 uf2 mf2 hmark
  refine ⟨by rw [hrun], ?_, ?_⟩
  · rw [hrun]
    exact hafter.2 _
  · rw [hrun]
    exact hafter.1

/-- C2 witness for the amended theorem: a concrete successful consume
followed by a failing second attempt. -/
theorem c2_amended_witness :
    (resetPasswordHandler
        ⟨[⟨1, "alice", "alice@example.com", "oldhash", false⟩],
         [⟨"tok1", "alice@example.com", 1000, false⟩]⟩
        "tok1" "Password1" "Password1" 10 (fun _ => "h2") false false).1 =
      Resp.redirect "/login?success=Password berhasil direset! Silakan login dengan password baru." ∧
    (resetPasswordHandler
        (resetPasswordHandler
          ⟨[⟨1, "alice", "alice@example.com", "oldhash", false⟩],
           [⟨"tok1", "alice@example.com", 1000, false⟩]⟩
          "tok1" "Password1" "Password1" 10 (fun _ => "h2") false false).2
        "tok1" "Password1" "Password1" 11 (fun _ => "h3") true false).1 ≠
      Resp.redirect "/login?success=Password berhasil direset! Silakan login dengan password baru." ∧
    (resetPasswordHandler
        (resetPasswordHandler
          ⟨[⟨1, "alice", "alice@example.com", "oldhash", false⟩],
           [⟨"tok1", "alice@example.com", 1000, false⟩]⟩
          "tok1" "Password1" "Password1" 10 (fun _ => "h2") false false).2
        "tok1" "Password1" "Password1" 11 (fun _ => "h3") true false).2 =
      (resetPasswordHandler
        ⟨[⟨1, "alice", "alice@example.com", "oldhash", false⟩],
         [⟨"tok1", "alice@example.com", 1000, false⟩]⟩
        "tok1" "Password1" "Password1" 10 (fun _ => "h2") false false).2 :=
  c2_amended_single_use
    ⟨[⟨1, "alice", "alice@example.com", "oldhash", false⟩],
     [⟨"tok1", "alice@example.com", 1000, false⟩]⟩
    "tok1" "Password1" "Password1" "Password1" "Password1" 10 11
    (fun _ => "h2") (fun _ => "h3") true false
    ⟨"tok1", "alice@example.com", 1000, false⟩
    (by decide) (by decide) (by decide) (by decide) (by decide) (by decide)

/-- Helper: the validity query over an appended store. -/
theorem findValidReset_append (l1 l2 : List ResetRow) (tok : String) (now : Nat) :
    findValidReset (l1 ++ l2) tok now =
      (findValidReset l1 tok now).or (findValidReset l2 tok now) := by
  simp [findValidReset, List.find?_append]

/-- Helper: a store none of whose rows carry the token never validates it. -/
theorem findValidReset_fresh (l : List ResetRow) (tok : String) (now : Nat)
    (hfresh : ∀ r ∈ l, r.token ≠ tok) : findValidReset l tok now = none := by
  unfold findValidReset
  rw [List.find?_eq_none]
  intro r hr
  simp [hfresh r hr]

/-- C3: token validation succeeds iff the token exists, is unused, and
the current time is strictly before its expiry; issuance sets expiry to
issuance time plus exactly one hour (3600 s), so a token issued at t0
validates at t0+3599 s and fails at t0+3601 s. -/
theorem c3_token_validity (resets : List ResetRow) (tok email : String)
    (t0 now : Nat) (hfresh : ∀ r ∈ resets, r.token ≠ tok) :
    ((findValidReset resets tok now).isSome = true ↔
      ∃ r ∈ resets, r.token = tok ∧ r.used = false ∧ now < r.expires_at) ∧
    resetPageHandler (issueToken resets email tok t0) tok (t0 + 3599) =
      Resp.renderResetForm (some tok) none ∧
    resetPageHandler (issueToken resets email tok t0) tok (t0 + 3601) =
      Resp.renderResetForm none
        (some "Link reset password tidak valid atau sudah kadaluarsa!") := by
  refine ⟨?_, ?_, ?_⟩
  · unfold findValidReset
    rw [List.find?_isSome]
    constructor
    · rintro ⟨r, hr, hp⟩
      simp only [Bool.and_eq_true, beq_iff_eq, Bool.not_eq_true',
        decide_eq_true_eq] at hp
      exact ⟨r, hr, hp.1.1, hp.1.2, hp.2⟩
    · rintro ⟨r, hr, hh1, hh2, hh3⟩
      exact ⟨r, hr, by simp [hh1, hh2, hh3]⟩
  · have hn : findValidReset resets tok (t0 + 3599) = none :=
      findValidReset_fresh resets tok _ hfresh
    have hone : findValidReset [⟨tok, email, t0 + 3600, false⟩] tok (t0 + 3599) =
        some ⟨tok, email, t0 + 3600, false⟩ := by
      have hlt : t0 + 3599 < t0 + 3600 := by omega
      simp [findValidReset, List.find?, hlt]
    unfold resetPageHandler issueToken
    rw [findValidReset_append, hn, hone]
    rfl
  · have hn : findValidReset resets tok (t0 + 3601) = none :=
      findValidReset_fresh resets tok _ hfresh
    have hone : findValidReset [⟨tok, email, t0 + 3600, false⟩] tok (t0 + 3601) =
        none := by
      have hlt : ¬ t0 + 3601 < t0 + 3600 := by omega
      simp [findValidReset, List.find?, hlt]
    unfold resetPageHandler issueToken
    rw [findValidReset_append, hn, hone]
    rfl

/-- C3 witness: a concrete store, a fresh token, and the two boundary
instants. -/
theorem c3_witness :
    ((findValidReset [⟨"t1", "a@b.c", 1000, false⟩] "t2" 10).isSome = true ↔
      ∃ r ∈ [(⟨"t1", "a@b.c", 1000, false⟩ : ResetRow)],
        r.token = "t2" ∧ r.used = false ∧ 10 < r.expires_at) ∧
    resetPageHandler (issueToken [⟨"t1", "a@b.c", 1000, false⟩] "a@b.c" "t2" 500)
        "t2" (500 + 3599) = Resp.renderResetForm (some "t2") none ∧
    resetPageHandler (issueToken [⟨"t1", "a@b.c", 1000, false⟩] "a@b.c" "t2" 500)
        "t2" (500 + 3601) =
      Resp.renderResetForm none
        (some "Link reset password tidak valid atau sudah kadaluarsa!") :=
  c3_token_validity [⟨"t1", "a@b.c", 1000, false⟩] "t2" "a@b.c" 500 10 (by decide)

/-- C4 (code bug evidence): the forgot-password handler renders two
different success messages for a registered and an unregistered email,
so the two runs are distinguishable to the caller — contradicting both
the claim and the code's own comment "Don't reveal if email exists or
not" (src/server.js line 444). -/
theorem c4_enumeration_distinguishable :
    (forgotPasswordHandler [⟨1, "alice", "alice@example.com", "h", false⟩] []
        "alice@example.com" "tok" 0).1 =
      Resp.render "forgot-password" none
        (some "Link reset password telah dikirim ke email Anda. Periksa console untuk melihat link (demo mode).") ∧
    (forgotPasswordHandler [⟨1, "alice", "alice@example.com", "h", false⟩] []
        "bob@example.com" "tok" 0).1 =
      Resp.render "forgot-password" none
        (some "Jika email terdaftar, link reset password telah dikirim ke email Anda. Silakan periksa inbox Anda.") ∧
    (forgotPasswordHandler [⟨1, "alice", "alice@example.com", "h", false⟩] []
        "alice@example.com" "tok" 0).1 ≠
      (forgotPasswordHandler [⟨1, "alice", "alice@example.com", "h", false⟩] []
        "bob@example.com" "tok" 0).1 := by
  decide

/-- C5: a request without a valid session (absent, or the falsy user id
0) gets the redirect-to-login outcome from every ownership-scoped
handler — dashboard list, both add variants, edit, update, delete — and
the anime table is left untouched: the store operation is never
reached. -/
theorem c5_auth_gate (userId : Option Nat) (table : List AnimeEntry)
    (eid freshId : Nat) (title : String) (ratingO : Option Int) (rating : Int)
    (episodes : Option Int) (genreO : Option String) (genreS : String)
    (image newFile : Option String) (dbFails : Bool)
    (h : isAuthenticated userId = false) :
    dashboardHandler userId table = (Resp.redirect "/login", table) ∧
    addHandlerSrv userId table freshId title ratingO episodes genreO image =
      (Resp.redirect "/login", table) ∧
    addHandlerP0 userId table freshId title ratingO episodes genreS image =
      (Resp.redirect "/login", table) ∧
    editHandler userId table eid = (Resp.redirect "/login", table) ∧
    updateHandlerSrv userId table eid title rating episodes genreO newFile dbFails =
      (Resp.redirect "/login", table) ∧
    deleteHandlerSrv userId table eid = (Resp.redirect "/login", table) := by
  refine ⟨?_, ?_, ?_, ?_, ?_, ?_⟩ <;>
    simp [dashboardHandler, addHandlerSrv, addHandlerP0, editHandler,
      updateHandlerSrv, deleteHandlerSrv, h]

/-- C5 witness: an absent session against every handler. -/
theorem c5_witness :
    dashboardHandler none [] = (Resp.redirect "/login", []) ∧
    addHandlerSrv none [] 1 "t" (some 5) none none none = (Resp.redirect "/login", []) ∧
    addHandlerP0 none [] 1 "t" (some 5) none "" none = (Resp.redirect "/login", []) ∧
    editHandler none [] 1 = (Resp.redirect "/login", []) ∧
    updateHandlerSrv none [] 1 "t" 5 none none none false = (Resp.redirect "/login", []) ∧
    deleteHandlerSrv none [] 1 = (Resp.redirect "/login", []) :=
  c5_auth_gate none [] 1 1 "t" (some 5) 5 none none "" none none false (by decide)

/-- C6: in both add handlers a rating outside [1,10] is rejected with an
error outcome and no entry is created, while a rating within [1,10]
(in particular exactly 1 or exactly 10) creates an entry carrying that
exact rating — never clamped. -/
theorem c6_rating_boundaries (table : List AnimeEntry) (u freshId : Nat)
    (title : String) (rBad rGood : Int) (episodes : Option Int)
    (genreO : Option String) (genreS : String) (image : Option String)
    (hu0 : u ≠ 0) (htitle : title ≠ "") (htrim : jsTrim title ≠ "")
    (hbad : rBad < 1 ∨ 10 < rBad) (hlo : 1 ≤ rGood) (hhi : rGood ≤ 10) :
    addHandlerSrv (some u) table freshId title (some rBad) episodes genreO image =
      (Resp.redirect "/dashboard?error=Gagal menambahkan anime!", table) ∧
    addHandlerP0 (some u) table freshId title (some rBad) episodes genreS image =
      (Resp.redirect "/dashboard?error=Judul dan rating (1-10) wajib diisi!", table) ∧
    addHandlerSrv (some u) table freshId title (some rGood) episodes genreO image =
      (Resp.redirect "/dashboard",
       table ++ [⟨freshId, u, title, rGood, episodes, genreO, image⟩]) ∧
    addHandlerP0 (some u) table freshId title (some rGood) episodes genreS image =
      (Resp.redirect "/dashboard?success=Anime berhasil ditambahkan!",
       table ++ [⟨freshId, u, jsTrim title, rGood, episodes,
         (if jsTrim genreS == "" then none else some (jsTrim genreS)), image⟩]) := by
  have hauth : isAuthenticated (some u) = true := by simp [isAuthenticated, hu0]
  have hnb1 : ¬ rGood < 1 := by omega
  have hnb2 : ¬ 10 < rGood := by omega
  refine ⟨?_, ?_, ?_, ?_⟩
  · rcases hbad with hbb | hbb <;> simp [addHandlerSrv, hauth, htitle, hbb]
  · rcases hbad with hbb | hbb <;> simp [addHandlerP0, hauth, htrim, hbb]
  · simp [addHandlerSrv, hauth, htitle, hnb1, hnb2]
  · simp [addHandlerP0, hauth, htrim, hnb1, hnb2]

/-- C6 witness: rating 0 rejected, rating 10 accepted, in both handlers. -/
theorem c6_witness :
    addHandlerSrv (some 1) [] 7 "Bocchi the Rock" (some 0) none none none =
      (Resp.redirect "/dashboard?error=Gagal menambahkan anime!", []) ∧
    addHandlerP0 (some 1) [] 7 "Bocchi the Rock" (some 0) none "" none =
      (Resp.redirect "/dashboard?error=Judul dan rating (1-10) wajib diisi!", []) ∧
    addHandlerSrv (some 1) [] 7 "Bocchi the Rock" (some 10) none none none =
      (Resp.redirect "/dashboard",
       [⟨7, 1, "Bocchi the Rock", 10, none, none, none⟩]) ∧
    addHandlerP0 (some 1) [] 7 "Bocchi the Rock" (some 10) none "" none =
      (Resp.redirect "/dashboard?success=Anime berhasil ditambahkan!",
       [⟨7, 1, jsTrim "Bocchi the Rock", 10, none,
         (if jsTrim "" == "" then none else some (jsTrim "")), none⟩]) :=
  c6_rating_boundaries [] 1 7 "Bocchi the Rock" 0 10 none none "" none
    (by decide) (by decide) (by decide) (Or.inl (by decide)) (by decide) (by decide)

/-- C7 counterexample: in the src/server.js add handler a whitespace-only
title — empty after trimming — is accepted and an entry is created,
refuting the claim as stated over that handler. -/
theorem c7_counterexample :
    addHandlerSrv (some 1) [] 7 "   " (some 5) none none none =
      (Resp.redirect "/dashboard", [⟨7, 1, "   ", 5, none, none, none⟩]) ∧
    jsTrim "   " = "" := by
  decide

/-- C7 as amended: the src/unnamed/part_000 add handler rejects every
request whose title is empty after trimming, creating no entry (the
src/server.js handler only rejects a fully empty title — see the
counterexample). -/
theorem c7_amended_p0_trim (table : List AnimeEntry) (u freshId : Nat)
    (title : String) (rating : Option Int) (episodes : Option Int)
    (genreS : String) (image : Option String)
    (hu0 : u ≠ 0) (htrim : jsTrim title = "") :
    addHandlerP0 (some u) table freshId title rating episodes genreS image =
      (Resp.redirect "/dashboard?error=Judul dan rating (1-10) wajib diisi!", table) := by
  have hauth : isAuthenticated (some u) = true := by simp [isAuthenticated, hu0]
  cases rating with
  | none => simp [addHandlerP0, hauth]
  | some r => simp [addHandlerP0, hauth, htrim]

/-- C7 witness for the amended theorem: a whitespace-only title with a
valid rating is rejected by the part_000 handler. -/
theorem c7_amended_witness :
    addHandlerP0 (some 1) [] 7 "   " (some 5) none "" none =
      (Resp.redirect "/dashboard?error=Judul dan rating (1-10) wajib diisi!", []) :=
  c7_amended_p0_trim [] 1 7 "   " (some 5) none "" none (by decide) (by decide)

/-- C8: a second, otherwise well-formed registration with an
already-registered username ends with the duplicate-username outcome and
the user table (hence the existing row) unchanged; moreover the
store-level UNIQUE constraint alone rejects any insert of a row with an
existing username, independently of the application-level pre-check. -/
theorem c8_duplicate_username (users : List UserRow) (v : UserRow)
    (username email password confirm : String) (terms newsletter : Bool)
    (hashOf : String → String) (freshId : Nat) (u2 : UserRow)
    (hv : v ∈ users) (hname : v.username = username)
    (hue : username ≠ "") (hee : email ≠ "") (hpe : password ≠ "") (hce : confirm ≠ "")
    (hterms : terms = true)
    (husr : usernameErrorMsg username = none) (hem : validateEmail email = true)
    (hpw : passwordErrorMsg password = none) (hm : password = confirm)
    (hu2 : u2.username = username) :
    registerHandler users username email password confirm terms newsletter hashOf freshId =
      (RegResp.duplicateUsername, users) ∧
    insertUser users u2 = none := by
  have hany : users.any (fun w => w.username == username) = true :=
    List.any_eq_true.2 ⟨v, hv, by simp [hname]⟩
  constructor
  · subst hm
    unfold registerHandler
    simp [hue, hee, hpe, hce, hterms, husr, hem, hpw, hany]
  · unfold insertUser
    have hany2 : users.any (fun w => w.username == u2.username || w.email == u2.email) = true :=
      List.any_eq_true.2 ⟨v, hv, by simp [hname, hu2]⟩
    simp [hany2]

/-- C8 witness: registering "alice" twice. -/
theorem c8_witness :
    registerHandler [⟨1, "alice", "alice@example.com", "h", false⟩]
        "alice" "new@example.com" "Password1" "Password1" true false (fun s => s) 2 =
      (RegResp.duplicateUsername, [⟨1, "alice", "alice@example.com", "h", false⟩]) ∧
    insertUser [⟨1, "alice", "alice@example.com", "h", false⟩]
        ⟨2, "alice", "other@example.com", "h2", false⟩ = none :=
  c8_duplicate_username [⟨1, "alice", "alice@example.com", "h", false⟩]
    ⟨1, "alice", "alice@example.com", "h", false⟩
    "alice" "new@example.com" "Password1" "Password1" true false (fun s => s) 2
    ⟨2, "alice", "other@example.com", "h2", false⟩
    (by decide) (by decide) (by decide) (by decide) (by decide) (by decide)
    (by decide) (by decide) (by decide) (by decide) (by decide) (by decide)

/-- C9: once the ownership check has passed, the update handler responds
with the redirect to /dashboard even when the database UPDATE fails —
the error is only logged, the table is left unchanged, and the caller
receives the same success-shaped redirect as on a successful update. -/
theorem c9_update_db_error_still_redirects (table : List AnimeEntry) (u eid : Nat)
    (title : String) (rating : Int) (episodes : Option Int) (genre : Option String)
    (newFile : Option String)
    (hu0 : u ≠ 0) (hown : (getEntry table u eid).isSome = true) :
    (updateHandlerSrv (some u) table eid title rating episodes genre newFile true).1 =
      Resp.redirect "/dashboard" ∧
    (updateHandlerSrv (some u) table eid title rating episodes genre newFile true).2 =
      table ∧
    (updateHandlerSrv (some u) table eid title rating episodes genre newFile false).1 =
      Resp.redirect "/dashboard" := by
  obtain ⟨a, ha⟩ := Option.isSome_iff_exists.1 hown
  have hauth : isAuthenticated (some u) = true := by simp [isAuthenticated, hu0]
  refine ⟨?_, ?_, ?_⟩ <;> simp [updateHandlerSrv, hauth, ha]

/-- C9 witness: owner 1 updating own entry 1 with a failing UPDATE. -/
theorem c9_witness :
    (updateHandlerSrv (some 1) [⟨1, 1, "t", 5, none, none, none⟩] 1
        "t2" 6 none none none true).1 = Resp.redirect "/dashboard" ∧
    (updateHandlerSrv (some 1) [⟨1, 1, "t", 5, none, none, none⟩] 1
        "t2" 6 none none none true).2 = [⟨1, 1, "t", 5, none, none, none⟩] ∧
    (updateHandlerSrv (some 1) [⟨1, 1, "t", 5, none, none, none⟩] 1
        "t2" 6 none none none false).1 = Resp.redirect "/dashboard" :=
  c9_update_db_error_still_redirects [⟨1, 1, "t", 5, none, none, none⟩] 1 1
    "t2" 6 none none none (by decide) (by decide)

/-- Helper: the source username validator agrees with the stated rule. -/
theorem validateUsername_iff (s : String) :
    validateUsername s = true ↔ specUsernameRules s := by
  unfold validateUsername usernameErrorMsg specUsernameRules
  split_ifs with h1 h2 h3
  · simp only [Option.isNone_some, Bool.false_eq_true, false_iff]
    rintro ⟨ha, -, -⟩
    omega
  · simp only [Option.isNone_some, Bool.false_eq_true, false_iff]
    rintro ⟨-, hb, -⟩
    omega
  · simp only [Option.isNone_some, Bool.false_eq_true, false_iff]
    rintro ⟨-, -, hc⟩
    rw [Bool.not_eq_true'] at h3
    rw [List.all_eq_false] at h3
    obtain ⟨c, hcmem, hcbad⟩ := h3
    rcases hc c hcmem with h | h | h <;> simp [h] at hcbad
  · simp only [Option.isNone_none, true_iff]
    refine ⟨by omega, by omega, ?_⟩
    intro c hcmem
    simp only [Bool.not_eq_true, Bool.not_eq_false'] at h3
    have hc := List.all_eq_true.1 h3 c hcmem
    simp only [Bool.or_eq_true, beq_iff_eq] at hc
    tauto

/-- Helper: the source password validator agrees with the stated rule. -/
theorem validatePassword_iff (s : String) :
    validatePassword s = true ↔ specPasswordRules s := by
  unfold validatePassword passwordErrorMsg specPasswordRules
  split_ifs with h1 h2 h3 h4
  · simp only [Option.isNone_some, Bool.false_eq_true, false_iff]
    rintro ⟨ha, -, -, -⟩
    omega
  · simp only [Option.isNone_some, Bool.false_eq_true, false_iff]
    rintro ⟨-, ⟨c, hc, hcu⟩, -, -⟩
    rw [Bool.not_eq_true'] at h2
    rw [List.any_eq_false] at h2
    exact absurd hcu (by simpa using h2 c hc)
  · simp only [Option.isNone_some, Bool.false_eq_true, false_iff]
    rintro ⟨-, -, ⟨c, hc, hcl⟩, -⟩
    rw [Bool.not_eq_true'] at h3
    rw [List.any_eq_false] at h3
    exact absurd hcl (by simpa using h3 c hc)
  · simp only [Option.isNone_some, Bool.false_eq_true, false_iff]
    rintro ⟨-, -, -, ⟨c, hc, hcd⟩⟩
    rw [Bool.not_eq_true'] at h4
    rw [List.any_eq_false] at h4
    exact absurd hcd (by simpa using h4 c hc)
  · simp only [Option.isNone_none, true_iff]
    simp only [Bool.not_eq_true, Bool.not_eq_false'] at h2 h3 h4
    refine ⟨by omega, ?_, ?_, ?_⟩
    · obtain ⟨c, hc, hcp⟩ := List.any_eq_true.1 h2
      exact ⟨c, hc, hcp⟩
    · obtain ⟨c, hc, hcp⟩ := List.any_eq_true.1 h3
      exact ⟨c, hc, hcp⟩
    · obtain ⟨c, hc, hcp⟩ := List.any_eq_true.1 h4
      exact ⟨c, hc, hcp⟩

/-- Helper: every run of the register handler either ends in a validation
outcome with the user table untouched, or has passed both the username
and the password validator. -/
theorem registerHandler_cases (users : List UserRow)
    (username email password confirm : String) (terms newsletter : Bool)
    (hashOf : String → String) (freshId : Nat) :
    (isValidationResp
        (registerHandler users username email password confirm terms newsletter hashOf freshId).1 = true ∧
      (registerHandler users username email password confirm terms newsletter hashOf freshId).2 = users) ∨
    (validateUsername username = true ∧ validatePassword password = true) := by
  unfold registerHandler
  by_cases h1 : (username == "" || email == "" || password == "" || confirm == "") = true
  · simp only [if_pos h1]
    exact Or.inl ⟨rfl, by trivial⟩
  · simp only [if_neg h1]
    by_cases h2 : (!terms) = true
    · simp only [if_pos h2]
      exact Or.inl ⟨rfl, by trivial⟩
    · simp only [if_neg h2]
      rcases husr : usernameErrorMsg username with _ | m
      · by_cases h3 : (!validateEmail email) = true
        · simp only [husr, if_pos h3]
          exact Or.inl ⟨rfl, by trivial⟩
        · rcases hpw : passwordErrorMsg password with _ | m2
          · exact Or.inr ⟨by simp [validateUsername, husr],
              by simp [validatePassword, hpw]⟩
          · simp only [husr, if_neg h3, hpw]
            exact Or.inl ⟨rfl, by trivial⟩
      · simp only [husr]
        exact Or.inl ⟨rfl, by trivial⟩

/-- C10: a user row is created only when the username is 3 to 20
characters of letters, digits and underscore and the password has at
least 8 characters with an uppercase letter, a lowercase letter and a
digit; any request violating these rules ends in a validation outcome
with no user row created. -/
theorem c10_registration_validation (users : List UserRow)
    (username email password confirm : String) (terms newsletter : Bool)
    (hashOf : String → String) (freshId : Nat) :
    ((registerHandler users username email password confirm terms newsletter hashOf freshId).1 =
        RegResp.redirectLoginSuccess →
      specUsernameRules username ∧ specPasswordRules password) ∧
    (¬(specUsernameRules username ∧ specPasswordRules password) →
      isValidationResp
        (registerHandler users username email password confirm terms newsletter hashOf freshId).1 = true ∧
      (registerHandler users username email password confirm terms newsletter hashOf freshId).2 = users) := by
  have hcases := registerHandler_cases users username email password confirm terms
    newsletter hashOf freshId
  constructor
  · intro hs
    rcases hcases with ⟨hval, -⟩ | ⟨hu, hp⟩
    · rw [hs] at hval
      simp [isValidationResp] at hval
    · exact ⟨(validateUsername_iff username).1 hu, (validatePassword_iff password).1 hp⟩
  · intro hA
    rcases hcases with hvu | ⟨hu, hp⟩
    · exact hvu
    · exact absurd ⟨(validateUsername_iff username).1 hu,
        (validatePassword_iff password).1 hp⟩ hA

/-- C10 witness: a too-short username is rejected with a validation
outcome and no row created. -/
theorem c10_witness :
    ¬(specUsernameRules "ab" ∧ specPasswordRules "Password1") ∧
    (isValidationResp
        (registerHandler [] "ab" "new@example.com" "Password1" "Password1"
          true false (fun s => s) 1).1 = true ∧
      (registerHandler [] "ab" "new@example.com" "Password1" "Password1"
          true false (fun s => s) 1).2 = []) :=
  ⟨by decide,
   (c10_registration_validation [] "ab" "new@example.com" "Password1" "Password1"
      true false (fun s => s) 1).2 (by decide)⟩

end AnimeApp
